import Mathlib

/-!
Shallow embedding of the CASHE_PROXY core (src/src/cache.c, src/src/thread_pool.c,
src/src/log.c, src/include/cache.h) and verification of the specification claims.

Modelling conventions:
* C byte buffers are `List Nat` (byte values); a `char *` that may be NULL is
  `Option (List Nat)`.  The end of a list plays the role of the NUL terminator
  for `strncmp`.
* C `int` / `time_t` arithmetic is `Int` with C truncated division (`Int.tdiv`)
  and truncated remainder (`Int.tmod`).  `char` is signed (the reference
  platform is x86-64 Linux), so a byte b ≥ 128 is read as b − 256.
* Pointer structures become values: a bucket chain (`cache_node_t *` list) is a
  `List cache_node_t`, the bucket array is a `List` of chains, a nullable
  `cache_t *` argument is `Option cache_t`.
* Locks have no effect in this sequential embedding and are dropped; every
  state mutation of the C code is explicit state passing.
* `malloc` is modelled as always succeeding (the allocation-failure branches
  return ERROR/NULL in the source and are not the subject of any claim).
-/

/-- `struct timeval` (seconds, microseconds) as read by `gettimeofday`. -/
structure timeval where
  tv_sec : Int
  tv_usec : Int
deriving Repr, DecidableEq

/-- `struct cache_entry_t` from include/cache.h: the request fingerprint bytes,
their length, and the atomic `deleted` flag.  The `response` message and the
mutex/condvar coordinator are not touched by any cache-index operation and are
omitted. -/
structure cache_entry_t where
  request : List Nat
  request_len : Nat
  deleted : Bool
deriving Repr, DecidableEq

/-- `struct cache_node_t` from cache.c: one bucket-chain cell.  The `next`
pointer is represented by the position in the chain list; the per-node rwlock
is dropped. -/
structure cache_node_t where
  entry : cache_entry_t
  last_modified_time : timeval
deriving Repr, DecidableEq

/-- `struct cache_t` from cache.c: the bucket array and the expiry parameter.
The garbage-collector thread handle and running flag are not part of the
per-operation state. -/
structure cache_t where
  capacity : Nat
  array : List (List cache_node_t)
  entry_expired_time_ms : Int
deriving Repr, DecidableEq

/-- Return codes from include/cache.h. -/
def SUCCESS : Int := 0

/-- `#define ERROR (-1)` from include/cache.h. -/
def ERROR : Int := -1

/-- `#define NOT_FOUND (-2)` from include/cache.h. -/
def NOT_FOUND : Int := -2

/-- The value of a byte read through C signed `char` (x86-64 Linux):
bytes 0..127 are themselves, bytes 128..255 are b − 256. -/
def signed_char (b : Nat) : Int :=
  if b % 256 < 128 then ((b % 256 : Nat) : Int) else ((b % 256 : Nat) : Int) - 256

/-- `hash` from cache.c lines 190-196:
`if (request == NULL) return 0;` then
`for i in 0..request_len: hash_value = (hash_value * 31 + request[i]) % size`
with C `int` arithmetic: signed `char` operand and truncated remainder. -/
def hash (request : Option (List Nat)) (request_len : Nat) (size : Int) : Int :=
  match request with
  | none => 0
  | some bytes =>
      (bytes.take request_len).foldl
        (fun hash_value b => (hash_value * 31 + signed_char b).tmod size) 0

/-- The bucket index actually used to subscript `cache->array`
(a C `int` used as an index; nonnegative in defined executions). -/
def bucket_index (request : List Nat) (request_len : Nat) (capacity : Nat) : Nat :=
  (hash (some request) request_len (capacity : Int)).toNat

/-- `strncmp(a, b, n) == 0` for byte buffers: compares at most `n` bytes,
stopping early at a NUL byte or at the end of a buffer (which stands for the
terminating NUL). -/
def strncmp_eq : List Nat → List Nat → Nat → Bool
  | _, _, 0 => true
  | [], [], _ + 1 => true
  | [], y :: _, _ + 1 => y == 0
  | x :: _, [], _ + 1 => x == 0
  | x :: a, y :: b, n + 1 => x == y && (x == 0 || strncmp_eq a b n)

/-- The match test of cache.c lines 78 and 131:
`curr->entry->request_len == request_len && strncmp(curr->entry->request, request, request_len) == 0`. -/
def entry_matches (e : cache_entry_t) (request : List Nat) (request_len : Nat) : Bool :=
  e.request_len == request_len && strncmp_eq e.request request request_len

/-- `cache_create` (cache.c lines 36-63) without the thread spawn: capacity,
a bucket array of `capacity` NULL chains, and the expiry parameter. -/
def cache_create (capacity : Nat) (cache_expired_time_ms : Int) : cache_t :=
  { capacity := capacity
    array := List.replicate capacity []
    entry_expired_time_ms := cache_expired_time_ms }

/-- The chain walk of `cache_get` (cache.c lines 72-88): on the first matching
node, stamp `last_modified_time` with the current wall clock (`gettimeofday`,
line 79) and return its entry; otherwise advance.  Returns the found entry and
the updated chain. -/
def cache_get_chain (request : List Nat) (request_len : Nat) (now : timeval) :
    List cache_node_t → Option cache_entry_t × List cache_node_t
  | [] => (none, [])
  | curr :: rest =>
      if entry_matches curr.entry request request_len then
        (some curr.entry, { curr with last_modified_time := now } :: rest)
      else
        let (r, rest') := cache_get_chain request request_len now rest
        (r, curr :: rest')

/-- `cache_get` on a non-NULL cache (cache.c lines 71-88). -/
def cache_get_core (c : cache_t) (request : List Nat) (request_len : Nat)
    (now : timeval) : Option cache_entry_t × cache_t :=
  let index := bucket_index request request_len c.capacity
  let (r, chain') := cache_get_chain request request_len now (c.array.getD index [])
  (r, { c with array := c.array.set index chain' })

/-- `cache_get` (cache.c lines 65-89) including the NULL-cache guard of
lines 66-69, which logs and returns NULL. -/
def cache_get (cache : Option cache_t) (request : List Nat) (request_len : Nat)
    (now : timeval) : Option cache_entry_t × Option cache_t :=
  match cache with
  | none => (none, none)
  | some c =>
      let (r, c') := cache_get_core c request request_len now
      (r, some c')

/-- `cache_node_create` (cache.c lines 198-213): wrap the entry, stamp
`last_modified_time` with the wall clock at creation (line 208). -/
def cache_node_create (entry : cache_entry_t) (now : timeval) : cache_node_t :=
  { entry := entry, last_modified_time := now }

/-- `cache_add` on non-NULL arguments (cache.c lines 101-113): prepend a fresh
node at the head of the bucket selected by `hash(entry->request,
entry->request_len, capacity)`. -/
def cache_add_core (c : cache_t) (entry : cache_entry_t) (now : timeval) : cache_t :=
  let index := bucket_index entry.request entry.request_len c.capacity
  let chain' := cache_node_create entry now :: c.array.getD index []
  { c with array := c.array.set index chain' }

/-- `cache_add` (cache.c lines 91-114) including the NULL guards of lines
92-99, which log and return ERROR. -/
def cache_add (cache : Option cache_t) (entry : Option cache_entry_t)
    (now : timeval) : Int × Option cache_t :=
  match cache, entry with
  | none, _ => (ERROR, cache)
  | some _, none => (ERROR, cache)
  | some c, some e => (SUCCESS, some (cache_add_core c e now))

/-- `cache_node_destroy` → `cache_entry_destroy` on the node's entry.
Modelled from the spec: `cache_entry_destroy` is declared in include/cache.h
but its definition is not under src/; per spec §3 an entry carries "a
'deleted' flag, set when the entry has been unlinked from the index", with
reclamation deferred while late readers hold a reference, so destruction is
modelled as setting `deleted := true` on the entry. -/
def cache_node_destroy (node : cache_node_t) : cache_node_t :=
  { node with entry := { node.entry with deleted := true } }

/-- The chain walk of `cache_delete` (cache.c lines 122-153).  `is_head`
records `prev == NULL`.  On the first matching node:
* head with `next == NULL` (lines 132-134): the bucket slot is set to NULL;
* head with `next != NULL`: the source writes nothing to the bucket slot, so
  the destroyed head node stays linked (its entry is destroyed in place);
* otherwise (lines 135-139): `prev->next = curr->next` unlinks the node.
Returns the status and the resulting chain. -/
def cache_delete_chain (request : List Nat) (request_len : Nat) :
    Bool → List cache_node_t → Int × List cache_node_t
  | _, [] => (NOT_FOUND, [])
  | is_head, curr :: rest =>
      if entry_matches curr.entry request request_len then
        if is_head then
          match rest with
          | [] => (SUCCESS, [])
          | _ :: _ => (SUCCESS, cache_node_destroy curr :: rest)
        else (SUCCESS, rest)
      else
        let (s, rest') := cache_delete_chain request request_len false rest
        (s, curr :: rest')

/-- `cache_delete` on a non-NULL cache (cache.c lines 122-153). -/
def cache_delete_core (c : cache_t) (request : List Nat) (request_len : Nat) :
    Int × cache_t :=
  let index := bucket_index request request_len c.capacity
  let (s, chain') := cache_delete_chain request request_len true (c.array.getD index [])
  (s, { c with array := c.array.set index chain' })

/-- `cache_delete` (cache.c lines 116-154) including the NULL-cache guard of
lines 117-120, which logs and returns ERROR. -/
def cache_delete (cache : Option cache_t) (request : List Nat)
    (request_len : Nat) : Int × Option cache_t :=
  match cache with
  | none => (ERROR, cache)
  | some c =>
      let (s, c') := cache_delete_core c request request_len
      (s, some c')

/-- Observable outcome of `cache_destroy` (cache.c lines 156-188): the
NULL-cache guard of lines 157-160 logs and returns without touching anything;
otherwise every remaining node is destroyed and the cache freed. -/
inductive destroy_result where
  | logged_return
  | freed_all
deriving Repr, DecidableEq

/-- `cache_destroy` (cache.c lines 156-188), reduced to its control path:
NULL cache → guarded no-op return; otherwise teardown. -/
def cache_destroy (cache : Option cache_t) : destroy_result :=
  match cache with
  | none => destroy_result.logged_return
  | some _ => destroy_result.freed_all

/-- `diff` of the garbage collector (cache.c lines 249-250):
`(Δsec) * 1000 + (Δusec) / 1000` with C truncated division. -/
def gc_diff_ms (now last : timeval) : Int :=
  (now.tv_sec - last.tv_sec) * 1000 + (now.tv_usec - last.tv_usec).tdiv 1000

/-- The per-bucket walk of `garbage_collector_routine` (cache.c lines
241-266): walk the chain snapshot taken at the loop head; for each node whose
`diff ≥ entry_expired_time_ms`, call the ordinary `cache_delete` on the live
cache with that node's fingerprint, then continue at the captured `next`. -/
def gc_walk (now : timeval) : cache_t → List cache_node_t → cache_t
  | c, [] => c
  | c, curr :: next =>
      if gc_diff_ms now curr.last_modified_time ≥ c.entry_expired_time_ms then
        gc_walk now (cache_delete_core c curr.entry.request curr.entry.request_len).2 next
      else
        gc_walk now c next

/-- One tick of `garbage_collector_routine` (cache.c lines 239-267): read the
wall clock once (`gettimeofday`, line 239, the `now` argument), then scan
every bucket of the live cache in index order. -/
def garbage_collector_tick (c : cache_t) (now : timeval) : cache_t :=
  (List.range c.capacity).foldl (fun acc i => gc_walk now acc (acc.array.getD i [])) c

/-- The `usleep` argument of the garbage collector (cache.c line 236):
`MIN(1000 * entry_expired_time_ms / 2, 1000000)` microseconds, with C
truncated division. -/
def gc_sleep_usec (entry_expired_time_ms : Int) : Int :=
  if (1000 * entry_expired_time_ms).tdiv 2 < 1000000 then
    (1000 * entry_expired_time_ms).tdiv 2
  else 1000000

/-- `struct task_t` from thread_pool.c: tracing id plus an opaque routine and
argument (function pointers are opaque tokens here). -/
structure task_t where
  id : Int
  routine : Nat
  arg : Nat
deriving Repr, DecidableEq

/-- `struct thread_pool_t` from thread_pool.c: the circular task buffer and
its indices, plus the shutdown flag.  The mutex, condvars and executor thread
handles have no sequential content and are dropped. -/
structure thread_pool_t where
  tasks : List task_t
  capacity : Nat
  size : Nat
  front : Nat
  rear : Nat
  shutdown : Bool
deriving Repr, DecidableEq

/-- The enqueue step of `thread_pool_execute` (thread_pool.c lines 110-114):
write at `rear`, assign the next global id, advance `rear` modulo capacity,
increment `size`.  Returns the new pool and the new value of the global
`id_counter`. -/
def tp_enqueue (p : thread_pool_t) (id_counter : Int) (routine arg : Nat) :
    thread_pool_t × Int :=
  ({ p with
      tasks := p.tasks.set p.rear { id := id_counter, routine := routine, arg := arg }
      rear := (p.rear + 1) % p.capacity
      size := p.size + 1 },
   id_counter + 1)

/-- Observable outcome of `thread_pool_execute`: dereferencing a NULL pool
(undefined behaviour, the process faults), or returning with the final pool
state and global id counter, plus whether a task was enqueued. -/
inductive exec_result where
  | null_deref
  | returned (p : thread_pool_t) (id_counter : Int) (enqueued : Bool)
deriving Repr, DecidableEq

/-- `thread_pool_execute` (thread_pool.c lines 95-119).  Line 96 reads
`pool->shutdown` with no NULL guard, so a NULL pool is dereferenced.  The
`while (size == capacity && !shutdown) wait(not_full)` loop of line 103 is
modelled by `wake`: the pool state observed when the wait returns (concurrent
dequeues or a shutdown may have changed it); when the queue is not full the
loop body never runs and the state is unchanged.  Line 105 re-checks shutdown
after the wait and returns without enqueueing. -/
def thread_pool_execute (pool : Option thread_pool_t)
    (wake : thread_pool_t → thread_pool_t) (id_counter : Int)
    (routine arg : Nat) : exec_result :=
  match pool with
  | none => exec_result.null_deref
  | some p =>
      if p.shutdown then exec_result.returned p id_counter false
      else
        let p2 := if p.size = p.capacity ∧ ¬p.shutdown then wake p else p
        if p2.shutdown then exec_result.returned p2 id_counter false
        else
          let (p3, idc') := tp_enqueue p2 id_counter routine arg
          exec_result.returned p3 idc' true

/-- The control-character substitution of `log` (log.c lines 26-28): only
`'\n'` (10) and `'\r'` (13) are replaced with a space (32). -/
def log_sanitize (text : List Nat) : List Nat :=
  text.map (fun c => if c == 10 || c == 13 then 32 else c)

/-- The `%15s` field of the log line (log.c line 33): right-align the thread
name to a minimum width of 15 by left-padding with spaces. -/
def log_pad_name (name : List Nat) : List Nat :=
  List.replicate (15 - name.length) 32 ++ name

/-- One output line of `log` (log.c lines 33-42): the rendered timestamp,
`" --- ["`, the padded thread name, `"] : "`, the sanitized message, and the
terminating `'\n'`.  `ts` stands for the `%04d-%02d-%02d %02d:%02d:%02d.%03d`
timestamp bytes. -/
def log_line (ts name text : List Nat) : List Nat :=
  ts ++ [32, 45, 45, 45, 32, 91] ++ log_pad_name name ++ [93, 32, 58, 32] ++
    log_sanitize text ++ [10]

/-- The reference hash fold stated by the spec (§4.3): over the byte values,
`h = (h * 31 + byte_i) mod capacity` with mathematical (nonnegative) mod. -/
def spec_hash (bytes : List Nat) (capacity : Nat) : Nat :=
  bytes.foldl (fun h b => (h * 31 + b) % capacity) 0

/-! ## Helper lemmas -/

/-- `strncmp` is reflexive: a buffer always compares equal to itself. -/
theorem strncmp_eq_refl (a : List Nat) : ∀ n : Nat, strncmp_eq a a n = true := by
  induction a with
  | nil => intro n; cases n <;> rfl
  | cons x a ih =>
      intro n
      cases n with
      | zero => rfl
      | succ n => simp [strncmp_eq, ih n]

/-- An entry matches its own fingerprint and length. -/
theorem entry_matches_self (e : cache_entry_t) :
    entry_matches e e.request e.request_len = true := by
  simp [entry_matches, strncmp_eq_refl]

/-- ASCII bytes are unchanged by the signed-`char` reading. -/
theorem signed_char_of_lt (b : Nat) (h : b < 128) : signed_char b = (b : Int) := by
  unfold signed_char
  rw [Nat.mod_eq_of_lt (by omega)]
  simp [h]

/-- The hash fold of the source agrees with the spec's reference fold, and
stays inside `[0, capacity)`, as long as every byte is ASCII (< 128) and the
capacity is positive. -/
theorem hash_fold_ascii (capacity : Nat) (hcap : 0 < capacity) :
    ∀ (bytes : List Nat), (∀ b ∈ bytes, b < 128) → ∀ h : Nat, h < capacity →
      (bytes.foldl (fun hash_value b => (hash_value * 31 + signed_char b).tmod (capacity : Int)) (h : Int) =
        ((bytes.foldl (fun hv b => (hv * 31 + b) % capacity) h : Nat) : Int) ∧
       bytes.foldl (fun hv b => (hv * 31 + b) % capacity) h < capacity) := by
  intro bytes
  induction bytes with
  | nil => intro _ h hh; exact ⟨rfl, hh⟩
  | cons b rest ih =>
      intro hascii h hh
      have hb : b < 128 := hascii b (List.mem_cons_self b rest)
      have hstep : ((h : Int) * 31 + signed_char b).tmod (capacity : Int) =
          (((h * 31 + b) % capacity : Nat) : Int) := by
        rw [signed_char_of_lt b hb, Int.tmod_eq_emod (by positivity) (by positivity)]
        push_cast
        rfl
      have hlt : (h * 31 + b) % capacity < capacity := Nat.mod_lt _ hcap
      have := ih (fun x hx => hascii x (List.mem_cons_of_mem b hx)) ((h * 31 + b) % capacity) hlt
      simpa [List.foldl_cons, hstep] using this

/-- For ASCII fingerprints and positive capacity the bucket index is in
range. -/
theorem bucket_index_lt (request : List Nat) (request_len : Nat) (capacity : Nat)
    (hcap : 0 < capacity) (hascii : ∀ b ∈ request, b < 128) :
    bucket_index request request_len capacity < capacity := by
  have htake : ∀ b ∈ request.take request_len, b < 128 :=
    fun b hb => hascii b (List.mem_of_mem_take hb)
  have h2 := hash_fold_ascii capacity hcap (request.take request_len) htake 0 hcap
  have hdef : hash (some request) request_len (capacity : Int) =
      (request.take request_len).foldl
        (fun hash_value b => (hash_value * 31 + signed_char b).tmod (capacity : Int)) 0 := rfl
  rw [Nat.cast_zero] at h2
  simp only [bucket_index, hdef]
  rw [h2.1]
  simpa using h2.2

/-- Reading back a just-written bucket: `getD` after `set` at an in-range
index. -/
theorem list_getD_set_self {α : Type _} (l : List α) (i : Nat) (x d : α)
    (h : i < l.length) : List.getD (l.set i x) i d = x := by
  simp only [List.getD, List.get?_eq_getElem?, List.getElem?_set_eq_of_lt _ h,
    Option.getD_some]

/-! ## Concrete scenario: capacity 1, fingerprints "A" and "B" (spec §8, E2) -/

/-- The fingerprint "A" as an entry (byte 65, length 1). -/
def entry_A : cache_entry_t := { request := [65], request_len := 1, deleted := false }

/-- The fingerprint "B" as an entry (byte 66, length 1). -/
def entry_B : cache_entry_t := { request := [66], request_len := 1, deleted := false }

/-- A fixed insertion instant. -/
def time0 : timeval := { tv_sec := 0, tv_usec := 0 }

/-- Capacity-1 cache with expiry 100 ms after inserting "A" then "B"; both
hash to bucket 0, so the chain is B (head) → A. -/
def cache_AB : cache_t :=
  cache_add_core (cache_add_core (cache_create 1 100) entry_A time0) entry_B time0

/-! ## Claim theorems -/

/-- C1: `cache_delete` is claimed to unlink and destroy the first node whose
fingerprint matches, so that afterwards no bucket chain contains that node.
The code violates this when the matching node is the bucket head and has a
successor (cache.c lines 132-134 update the bucket slot only when
`curr->next == NULL`): with capacity 1 and chain B → A, deleting "B" returns
OK yet the destroyed head node for "B" is still linked in bucket 0. -/
theorem C1_delete_head_with_successor_not_unlinked :
    (cache_delete (some cache_AB) [66] 1).1 = SUCCESS ∧
    (((cache_delete (some cache_AB) [66] 1).2.getD (cache_create 1 100)).array.getD 0 []).any
      (fun n => n.entry.request == [66]) = true := by decide

/-- C2: `cache_get` is claimed never to return a logically deleted entry.
After the buggy head deletion of C1 the destroyed entry for "B" (its
`deleted` flag set by `cache_entry_destroy`) is still linked, and a subsequent
`cache_get` for "B" returns exactly that deleted entry. -/
theorem C2_get_returns_logically_deleted_entry :
    (cache_get (some (cache_delete_core cache_AB [66] 1).2) [66] 1 time0).1 =
      some { request := [66], request_len := 1, deleted := true } := by decide

/-- C4, counterexample: for the one-byte fingerprint 0x80 (128) and capacity
7, reading the byte through signed `char` makes the C remainder negative: the
code computes −2 while the spec's reference fold gives 2, and the result is
not in `[0, 7)`. -/
theorem C4_counterexample_high_byte :
    hash (some [128]) 1 7 = -2 ∧ spec_hash [128] 7 = 2 ∧
      ¬(0 ≤ hash (some [128]) 1 7) := by decide

/-- C4, amended: the hash is deterministic by construction, and for every
fingerprint whose bytes are ASCII (< 128) and every positive capacity the
computed index equals the spec's reference fold
`h = 0; for i: h = (h * 31 + byte_i) mod capacity` and lies in
`[0, capacity)`.  (For bytes ≥ 128 the signed-`char` reading makes the result
negative, see the counterexample.) -/
theorem C4_hash_matches_reference_fold_on_ascii (bytes : List Nat) (capacity : Nat)
    (hcap : 0 < capacity) (hascii : ∀ b ∈ bytes, b < 128) :
    hash (some bytes) bytes.length (capacity : Int) = (spec_hash bytes capacity : Int) ∧
    spec_hash bytes capacity < capacity := by
  have h2 := hash_fold_ascii capacity hcap bytes hascii 0 hcap
  rw [Nat.cast_zero] at h2
  have hdef : hash (some bytes) bytes.length (capacity : Int) =
      (bytes.take bytes.length).foldl
        (fun hash_value b => (hash_value * 31 + signed_char b).tmod (capacity : Int)) 0 := rfl
  rw [hdef, List.take_length]
  exact h2

/-- C4, witness: the amended theorem evaluated on the fingerprint "Hi"
(bytes 72, 105) with capacity 7. -/
theorem C4_hash_ascii_witness :
    hash (some [72, 105]) ([72, 105] : List Nat).length ((7 : Nat) : Int) =
      (spec_hash [72, 105] 7 : Int) ∧ spec_hash [72, 105] 7 < 7 :=
  C4_hash_matches_reference_fold_on_ascii [72, 105] 7 (by decide) (by decide)

/-- C5: the expirer tick is claimed to remove a node via the ordinary delete
path if and only if its age is at least `expiry_ms`.  The sleep cadence does
hold (`gc_sleep_usec 100 = 50000` µs = `min(100/2, 1000)` ms), and with chain
B → A both 200 ms old against a 100 ms expiry both nodes are due for removal,
yet after one tick bucket 0 still contains the destroyed node for "B": the
ordinary delete path fails to unlink a head node that has a successor
(cache.c lines 132-134). -/
theorem C5_expired_head_node_survives_tick :
    gc_sleep_usec 100 = 50000 ∧
    gc_diff_ms { tv_sec := 0, tv_usec := 200000 } time0 = 200 ∧
    (garbage_collector_tick cache_AB { tv_sec := 0, tv_usec := 200000 }).array.getD 0 [] =
      [{ entry := { request := [66], request_len := 1, deleted := true },
         last_modified_time := time0 }] := by decide

/-- C3, counterexample: `thread_pool_execute` has no NULL guard — line 96 of
thread_pool.c reads `pool->shutdown` immediately, so a NULL pool is
dereferenced (the process faults) instead of logging and returning. -/
theorem C3_counterexample_execute_null_pool :
    thread_pool_execute none (fun p => p) 0 0 0 = exec_result.null_deref := by rfl

/-- C3, amended: the cache operations do guard NULL arguments — `cache_get`,
`cache_add`, `cache_delete` and `cache_destroy` with a NULL cache, and
`cache_add` with a NULL entry, each log and return NULL / GENERIC_ERROR / a
no-op without touching any state — but `thread_pool_execute` with a NULL pool
performs no check and dereferences the pool. -/
theorem C3_null_arguments (request : List Nat) (request_len : Nat) (now : timeval)
    (c : cache_t) (wake : thread_pool_t → thread_pool_t) (id_counter : Int)
    (routine arg : Nat) :
    cache_get none request request_len now = (none, none) ∧
    cache_add none (some entry_A) now = (ERROR, none) ∧
    cache_add (some c) none now = (ERROR, some c) ∧
    cache_delete none request request_len = (ERROR, none) ∧
    cache_destroy none = destroy_result.logged_return ∧
    thread_pool_execute none wake id_counter routine arg = exec_result.null_deref := by
  exact ⟨rfl, rfl, rfl, rfl, rfl, rfl⟩

/-- C6: add-then-get round trip.  After `cache_add` succeeds on entry `e`,
`cache_get` with `e`'s fingerprint and length returns `e`: `add` prepends at
the bucket head and `get` scans from the head, so the first (most recently
added) node on the collision chain matches its own fingerprint.  Hypotheses:
the bucket array is well-formed (`capacity` chains), the capacity is positive
(required by `cache_create`), and the fingerprint bytes are ASCII (so the C
bucket index is defined and in range). -/
theorem C6_add_then_get_round_trip (c : cache_t) (e : cache_entry_t)
    (t now : timeval) (hlen : c.array.length = c.capacity) (hcap : 0 < c.capacity)
    (hascii : ∀ b ∈ e.request, b < 128) :
    (cache_get_core (cache_add_core c e t) e.request e.request_len now).1 = some e := by
  have hidx : bucket_index e.request e.request_len c.capacity < c.array.length := by
    rw [hlen]; exact bucket_index_lt _ _ _ hcap hascii
  unfold cache_add_core cache_get_core
  simp only [list_getD_set_self _ _ _ _ hidx]
  simp [cache_get_chain, cache_node_create, entry_matches_self]

/-- C6, witness: round trip on a fresh capacity-4 cache and the entry "A". -/
theorem C6_round_trip_witness :
    (cache_get_core (cache_add_core (cache_create 4 60000) entry_A time0)
      entry_A.request entry_A.request_len time0).1 = some entry_A :=
  C6_add_then_get_round_trip (cache_create 4 60000) entry_A time0 time0
    (by decide) (by decide) (by decide)

/-- If the `cache_get` chain walk finds an entry, the resulting chain holds a
node carrying that entry whose `last_modified_time` is the lookup clock. -/
theorem cache_get_chain_found (request : List Nat) (request_len : Nat) (now : timeval) :
    ∀ (chain chain' : List cache_node_t) (e : cache_entry_t),
      cache_get_chain request request_len now chain = (some e, chain') →
      ∃ n ∈ chain', n.entry = e ∧ n.last_modified_time = now := by
  intro chain
  induction chain with
  | nil =>
      intro chain' e h
      simp [cache_get_chain] at h
  | cons curr rest ih =>
      intro chain' e h
      by_cases hm : entry_matches curr.entry request request_len
      · rw [cache_get_chain, if_pos hm] at h
        obtain ⟨he, hc⟩ := Prod.mk.injEq .. ▸ h
        refine ⟨{ curr with last_modified_time := now }, ?_, ?_, rfl⟩
        · rw [← hc]; exact List.mem_cons_self _ _
        · simpa using he
      · rcases hrec : cache_get_chain request request_len now rest with ⟨r, rest'⟩
        rw [cache_get_chain, if_neg hm, hrec] at h
        obtain ⟨he, hc⟩ := Prod.mk.injEq .. ▸ h
        obtain ⟨n, hn, hne, hnt⟩ := ih rest' e (by rw [hrec, he])
        exact ⟨n, by rw [← hc]; exact List.mem_cons_of_mem _ hn, hne, hnt⟩

/-- `cache_get_core` written as an explicit pair (definitional unfolding of
the let/match structure). -/
theorem cache_get_core_eq (c : cache_t) (request : List Nat) (request_len : Nat)
    (now : timeval) :
    cache_get_core c request request_len now =
      ((cache_get_chain request request_len now
          (c.array.getD (bucket_index request request_len c.capacity) [])).1,
       { c with array := c.array.set (bucket_index request request_len c.capacity) (cache_get_chain request request_len now (c.array.getD (bucket_index request request_len c.capacity) [])).2 }) := rfl

/-- C7: every successful `cache_get` stamps the matched node: if the lookup
returns an entry, the resulting cache contains a bucket chain holding a node
with that entry whose `last_modified_time` equals the wall clock read at
lookup time (`gettimeofday`, cache.c line 79). -/
theorem C7_get_success_stamps_wall_clock (c : cache_t) (request : List Nat)
    (request_len : Nat) (now : timeval) (e : cache_entry_t) (c' : cache_t)
    (h : cache_get_core c request request_len now = (some e, c')) :
    ∃ chain ∈ c'.array, ∃ n ∈ chain, n.entry = e ∧ n.last_modified_time = now := by
  rcases hrec : cache_get_chain request request_len now
      (c.array.getD (bucket_index request request_len c.capacity) []) with ⟨r, chain'⟩
  rw [cache_get_core_eq, hrec] at h
  simp only [Prod.mk.injEq] at h
  obtain ⟨hr, hc'⟩ := h
  by_cases hidx : bucket_index request request_len c.capacity < c.array.length
  · refine ⟨chain', ?_, ?_⟩
    · rw [← hc']; exact List.mem_set c.array _ hidx chain'
    · exact cache_get_chain_found request request_len now _ chain' e (by rw [hrec, hr])
  · exfalso
    have hempty : c.array.getD (bucket_index request request_len c.capacity) [] = [] := by
      simp only [List.getD, List.get?_eq_getElem?]
      rw [List.getElem?_eq_none (by omega)]
      rfl
    rw [hempty] at hrec
    simp [cache_get_chain] at hrec
    rw [← hrec.1] at hr
    exact Option.noConfusion hr

/-- The expected cache after looking up "A" at wall clock (1 s, 0 µs) in a
capacity-1 cache holding "A" inserted at time 0: the node is re-stamped. -/
def cache_A_stamped : cache_t :=
  { capacity := 1
    array := [[{ entry := entry_A
                 last_modified_time := { tv_sec := 1, tv_usec := 0 } }]]
    entry_expired_time_ms := 100 }

/-- C7, witness: looking up "A" at wall clock (1 s, 0 µs) in a cache that
holds "A" inserted at time 0 stamps the node with the lookup clock. -/
theorem C7_stamp_witness :
    ∃ chain ∈ cache_A_stamped.array,
      ∃ n ∈ chain, n.entry = entry_A ∧
        n.last_modified_time = { tv_sec := 1, tv_usec := 0 } :=
  C7_get_success_stamps_wall_clock (cache_add_core (cache_create 1 100) entry_A time0)
    [65] 1 { tv_sec := 1, tv_usec := 0 } entry_A cache_A_stamped (by decide)

/-- C8: a submitter that observes the shutdown flag — either on entry
(thread_pool.c line 96) or after waking from the `not_full` wait (line 105) —
returns without enqueueing: the returned pool is exactly the state it
observed (tasks, size, front, rear untouched) and the global id counter is
unchanged. -/
theorem C8_execute_shutdown_is_silent_no_op (p : thread_pool_t)
    (wake : thread_pool_t → thread_pool_t) (id_counter : Int) (routine arg : Nat) :
    (p.shutdown = true →
      thread_pool_execute (some p) wake id_counter routine arg =
        exec_result.returned p id_counter false) ∧
    (p.shutdown = false → p.size = p.capacity → (wake p).shutdown = true →
      thread_pool_execute (some p) wake id_counter routine arg =
        exec_result.returned (wake p) id_counter false) := by
  constructor
  · intro h
    simp [thread_pool_execute, h]
  · intro h1 h2 h3
    simp [thread_pool_execute, h1, h2, h3]

/-- A pool already shut down (flag observed on entry). -/
def pool_shut : thread_pool_t :=
  { tasks := [], capacity := 4, size := 0, front := 0, rear := 0, shutdown := true }

/-- A full pool (size = capacity) not yet shut down; a submitter must wait. -/
def pool_full : thread_pool_t :=
  { tasks := [{ id := 0, routine := 0, arg := 0 }, { id := 1, routine := 0, arg := 0 }],
    capacity := 2, size := 2, front := 0, rear := 0, shutdown := false }

/-- C8, witness: both observation points exercised — shutdown seen on entry
on `pool_shut`, and shutdown seen after the wait on the full pool when the
wakeup finds the flag set. -/
theorem C8_shutdown_witness :
    thread_pool_execute (some pool_shut) (fun q => q) 5 0 0 =
      exec_result.returned pool_shut 5 false ∧
    thread_pool_execute (some pool_full) (fun q => { q with shutdown := true }) 5 0 0 =
      exec_result.returned { pool_full with shutdown := true } 5 false :=
  ⟨(C8_execute_shutdown_is_silent_no_op pool_shut (fun q => q) 5 0 0).1 rfl,
   (C8_execute_shutdown_is_silent_no_op pool_full
      (fun q => { q with shutdown := true }) 5 0 0).2 rfl rfl rfl⟩

/-- C9, counterexample: the tab character (9) is a control character, yet
`log` leaves it in place — log.c lines 26-28 substitute only `'\n'` (10) and
`'\r'` (13), not every control character. -/
theorem C9_counterexample_tab_preserved :
    log_sanitize [9] = [9] ∧ (9 : Nat) < 32 ∧ (9 : Nat) ≠ 32 := by decide

/-- C9, amended: every call to `log` writes exactly one line — the rendered
message has `'\n'` and `'\r'` (only these control characters) substituted
with spaces, so the message part contains no line break and the only newline
byte in the output is the terminator appended by the format string.
Hypotheses: the timestamp rendering (decimal digits and punctuation) and the
thread name contain no newline byte. -/
theorem C9_log_writes_exactly_one_line (ts name text : List Nat)
    (hts : 10 ∉ ts) (hname : 10 ∉ name) :
    List.count 10 (log_line ts name text) = 1 ∧
    10 ∉ log_sanitize text ∧ 13 ∉ log_sanitize text := by
  have hsan : ∀ b ∈ log_sanitize text, b ≠ 10 ∧ b ≠ 13 := by
    intro b hb
    rcases List.mem_map.mp hb with ⟨x, _, rfl⟩
    by_cases h10 : x = 10
    · subst h10; simp
    · by_cases h13 : x = 13
      · subst h13; simp
      · simp [h10, h13]
  have h1 : 10 ∉ log_sanitize text := fun h => (hsan 10 h).1 rfl
  have h2 : 13 ∉ log_sanitize text := fun h => (hsan 13 h).2 rfl
  refine ⟨?_, h1, h2⟩
  have hpad : 10 ∉ log_pad_name name := by
    intro h
    rcases List.mem_append.mp h with h | h
    · exact absurd (List.eq_of_mem_replicate h) (by decide)
    · exact hname h
  unfold log_line
  rw [List.count_append, List.count_append, List.count_append, List.count_append,
    List.count_append]
  rw [List.count_eq_zero.mpr hts, List.count_eq_zero.mpr hpad, List.count_eq_zero.mpr h1]
  decide

/-- C9, witness: the amended theorem on a concrete timestamp, the thread name
"main", and a message containing a newline and a tab. -/
theorem C9_single_line_witness :
    List.count 10 (log_line [50, 48] [109, 97, 105, 110] [104, 10, 9]) = 1 ∧
    10 ∉ log_sanitize [104, 10, 9] ∧ 13 ∉ log_sanitize [104, 10, 9] :=
  C9_log_writes_exactly_one_line [50, 48] [109, 97, 105, 110] [104, 10, 9]
    (by decide) (by decide)

/-- With capacity 1 every fingerprint lands in bucket 0 (C `% 1` is 0 even
for negative operands). -/
theorem bucket_index_capacity_one (request : List Nat) (request_len : Nat) :
    bucket_index request request_len 1 = 0 := by
  have aux : ∀ (l : List Nat) (a : Int), a = 0 →
      l.foldl (fun hash_value b => (hash_value * 31 + signed_char b).tmod ((1 : Nat) : Int)) a
        = 0 := by
    intro l
    induction l with
    | nil => intro a h; simpa using h
    | cons b rest ih =>
        intro a h
        subst h
        refine ih _ ?_
        simp [Int.tmod_one]
  unfold bucket_index
  rw [show hash (some request) request_len ((1 : Nat) : Int) =
      (request.take request_len).foldl
        (fun hash_value b => (hash_value * 31 + signed_char b).tmod ((1 : Nat) : Int)) 0 from rfl]
  rw [aux _ 0 rfl]
  rfl

/-- C10: `cache_node_create` stamps the node with the wall clock read at node
creation (`gettimeofday`, cache.c line 208), `cache_add` installs exactly
that node at the bucket head, and — for an entry that is never returned by
`cache_get` (sole entry of a capacity-1 cache, never looked up) — one expirer
tick at wall clock `now` removes the node precisely when
`gc_diff_ms now t ≥ expiry`, i.e. the entry becomes eligible for expiry
`expiry_ms` after its insertion, age measured from insertion time. -/
theorem C10_insertion_stamp_and_expiry (c : cache_t) (e : cache_entry_t)
    (t now : timeval) (expiry : Int)
    (hlen : c.array.length = c.capacity) (hcap : 0 < c.capacity)
    (hascii : ∀ b ∈ e.request, b < 128) :
    (cache_node_create e t).last_modified_time = t ∧
    ((cache_add_core c e t).array.getD
        (bucket_index e.request e.request_len c.capacity) []).head? =
      some (cache_node_create e t) ∧
    garbage_collector_tick (cache_add_core (cache_create 1 expiry) e t) now =
      (if expiry ≤ gc_diff_ms now t then
        { capacity := 1, array := [[]], entry_expired_time_ms := expiry }
      else cache_add_core (cache_create 1 expiry) e t) := by
  refine ⟨rfl, ?_, ?_⟩
  · have hidx : bucket_index e.request e.request_len c.capacity < c.array.length := by
      rw [hlen]; exact bucket_index_lt _ _ _ hcap hascii
    unfold cache_add_core
    simp only [list_getD_set_self _ _ _ _ hidx]
    rfl
  · have hb1 := bucket_index_capacity_one e.request e.request_len
    have hadd : cache_add_core (cache_create 1 expiry) e t =
        { capacity := 1, array := [[cache_node_create e t]],
          entry_expired_time_ms := expiry } := by
      unfold cache_add_core cache_create
      simp [hb1, List.getD]
    rw [hadd]
    unfold garbage_collector_tick
    rw [show List.range 1 = [0] from rfl]
    simp only [List.foldl_cons, List.foldl_nil]
    by_cases hexp : expiry ≤ gc_diff_ms now t
    · rw [if_pos hexp]
      simp [gc_walk, List.getD, cache_node_create, hexp, cache_delete_core,
        cache_delete_chain, hb1, entry_matches_self]
    · rw [if_neg hexp]
      simp [gc_walk, List.getD, cache_node_create, hexp]

/-- C10, witness: inserting "A" at time 0 stamps the node with time 0; with a
100 ms expiry, a tick 1 s later removes it. -/
theorem C10_expiry_witness :
    (cache_node_create entry_A time0).last_modified_time = time0 ∧
    ((cache_add_core (cache_create 4 100) entry_A time0).array.getD
        (bucket_index entry_A.request entry_A.request_len
          (cache_create 4 100).capacity) []).head? =
      some (cache_node_create entry_A time0) ∧
    garbage_collector_tick (cache_add_core (cache_create 1 100) entry_A time0)
        { tv_sec := 1, tv_usec := 0 } =
      (if (100 : Int) ≤ gc_diff_ms { tv_sec := 1, tv_usec := 0 } time0 then
        { capacity := 1, array := [[]], entry_expired_time_ms := 100 }
      else cache_add_core (cache_create 1 100) entry_A time0) :=
  C10_insertion_stamp_and_expiry (cache_create 4 100) entry_A time0
    { tv_sec := 1, tv_usec := 0 } 100 (by decide) (by decide) (by decide)
